import Mathlib

/-!
Shallow embedding of custom_whisper.py, a command-line tool that transcribes
an audio file with an external engine and writes the returned text under a
directory path derived from the current wall-clock time.

The pure path computations are translated directly from the source.  The
effectful parts (filesystem, console, external engine) are modelled by an
explicit state record threaded through the interpreter; possible faults of
the effectful primitives are injected through an environment record, and an
event trace records which external actions were attempted and in what order.
-/

namespace CustomWhisper

/-- Wall-clock timestamp fields as read from datetime.now() in the source. -/
structure DateTime where
  year : Nat
  month : Nat
  day : Nat
  hour : Nat
  minute : Nat
  second : Nat
deriving DecidableEq, Repr

/-- Python 02d formatting of a nonnegative integer: decimal digits, left
padded with a zero to width two. -/
def pad2 (n : Nat) : String :=
  if n < 10 then "0" ++ toString n else toString n

/-- Whether a path string begins with a slash (os.path absolute-path test). -/
def isAbs (p : String) : Bool :=
  match p.data with
  | [] => false
  | c :: _ => c == '/'

/-- Whether a path string ends with a slash. -/
def lastIsSlash (p : String) : Bool :=
  match p.data.getLast? with
  | none => false
  | some c => c == '/'

/-- Model of os.path.join for two components on a POSIX system. -/
def os_path_join (a b : String) : String :=
  if isAbs b then b
  else if a = "" then b
  else if lastIsSlash a then a ++ b
  else a ++ "/" ++ b

/-- The year/month segment built at line 12 of the source:
f-string year mod 100 and month, both 02d, joined by a slash. -/
def year_month (now : DateTime) : String :=
  pad2 (now.year % 100) ++ "/" ++ pad2 now.month

/-- The day+hour segment built at line 13 of the source. -/
def day_hour (now : DateTime) : String :=
  pad2 now.day ++ pad2 now.hour

/-- The minute+second filename stem returned at line 20 of the source. -/
def time_suffix (now : DateTime) : String :=
  pad2 now.minute ++ pad2 now.second

/-- The directory path os.path.join(base_dir, year_month, day_hour)
computed at line 16 of the source. -/
def dir_path (base_dir : String) (now : DateTime) : String :=
  os_path_join (os_path_join base_dir (year_month now)) (day_hour now)

/-- Filesystem model: the set of existing directories and a map from file
paths to their contents, both as lists. -/
structure FileSystem where
  dirs : List String
  files : List (String × String)
deriving DecidableEq, Repr

/-- Insert a directory path if not already present (set-like insertion). -/
def insertDir (ds : List String) (d : String) : List String :=
  if d ∈ ds then ds else ds ++ [d]

/-- Split a character list on the slash character. -/
def splitSlash : List Char → List (List Char)
  | [] => [[]]
  | c :: cs =>
    let r := splitSlash cs
    if c == '/' then [] :: r
    else
      match r with
      | [] => [[c]]
      | g :: gs => (c :: g) :: gs

/-- The slash-separated components of a path string. -/
def pathParts (p : String) : List String :=
  (splitSlash p.data).map (fun l => String.mk l)

/-- Join path components with slashes. -/
def joinSlash : List String → String
  | [] => ""
  | [p] => p
  | p :: ps => p ++ "/" ++ joinSlash ps

/-- The proper ancestors of a path, shortest first, as created by
os.makedirs on the way down to the target. -/
def parentPrefixes (p : String) : List String :=
  let parts := pathParts p
  (List.range (parts.length - 1)).map (fun i => joinSlash (parts.take (i + 1)))

/-- Add a directory and all its missing ancestors to the directory set. -/
def addDir (ds : List String) (p : String) : List String :=
  insertDir ((parentPrefixes p).foldl insertDir ds) p

/-- Model of os.makedirs: creates the directory and all missing ancestors;
raises FileExistsError when the directory exists and exist_ok is false. -/
def os_makedirs (fs : FileSystem) (p : String) (exist_ok : Bool) :
    Except String FileSystem :=
  if p ∈ fs.dirs ∧ exist_ok = false then Except.error "FileExistsError"
  else Except.ok { fs with dirs := addDir fs.dirs p }

/-- Model of open(path, "w") followed by write: overwrites any existing
file at that exact path with the given contents. -/
def fs_write (fs : FileSystem) (p text : String) : FileSystem :=
  { fs with files := (p, text) :: fs.files.filter (fun f => decide (f.1 ≠ p)) }

/-- Read a file's contents back from the filesystem model. -/
def read_file (fs : FileSystem) (p : String) : Option String :=
  (fs.files.find? (fun f => decide (f.1 = p))).map (fun f => f.2)

/-- Model of os.path.exists: true when the path names a directory or file. -/
def os_path_exists (fs : FileSystem) (p : String) : Bool :=
  decide (p ∈ fs.dirs) || fs.files.any (fun f => decide (f.1 = p))

/-- The keyword-argument dictionary built for the engine call at lines
34-38 of the source: each key either absent or bound to a string. -/
structure TranscribeOptions where
  language : Option String
  task : Option String
deriving DecidableEq, Repr

/-- Python truthiness of an optional string: None and the empty string are
falsy, every other string is truthy. -/
def pyTruthy : Option String → Bool
  | none => false
  | some s => if s = "" then false else true

/-- The transcribe_options dictionary of lines 34-38: starts empty, adds
the language key when language is truthy, adds the task key when task is
truthy. -/
def build_transcribe_options (language task : Option String) :
    TranscribeOptions :=
  { language := if pyTruthy language then language else none
    task := if pyTruthy task then task else none }

/-- Externally visible actions attempted by the tool, in program order. -/
inductive Event where
  | mkdir (path : String)
  | load_model (name : String)
  | transcribe_call (audio : String) (opts : TranscribeOptions)
  | file_write (path : String) (contents : String)
deriving DecidableEq, Repr

/-- Mutable world state threaded through a run: the filesystem, the console
lines printed so far, and the trace of attempted external actions. -/
structure RunState where
  fs : FileSystem
  console : List String
  events : List Event
deriving DecidableEq, Repr

/-- Append one printed line to the console. -/
def print_line (s : RunState) (msg : String) : RunState :=
  { s with console := s.console ++ [msg] }

/-- Environment of a run: the current wall-clock time and the outcome of
each fallible external primitive (a fault injected as some message, or the
engine's result). -/
structure Env where
  now : DateTime
  makedirsFault : Option String
  load_model : String → Except String Unit
  transcribe : String → TranscribeOptions → Except String String
  writeFault : Option String

/-- Lines 9-20 of the source: compute the datetime directory path, attempt
os.makedirs with exist_ok, and return the path and the minute/second
filename stem. -/
def create_datetime_directory (env : Env) (base_dir : String) (s : RunState) :
    RunState × Except String (String × String) :=
  let now := env.now
  let dp := dir_path base_dir now
  let s := { s with events := s.events ++ [Event.mkdir dp] }
  match env.makedirsFault with
  | some e => (s, Except.error e)
  | none =>
    match os_makedirs s.fs dp true with
    | Except.error e => (s, Except.error e)
    | Except.ok fs1 => ({ s with fs := fs1 }, Except.ok (dp, time_suffix now))

/-- The body of the try block at lines 24-48 of the source, threading the
world state and returning either the written file's path or the message of
the first fault raised. -/
def transcribe_body (env : Env) (audio_path model_name output_base_dir : String)
    (language task : Option String) (s : RunState) :
    RunState × Except String String :=
  match create_datetime_directory env output_base_dir s with
  | (s1, Except.error e) => (s1, Except.error e)
  | (s1, Except.ok (output_dir, suffix)) =>
    let s2 := print_line s1 ("Loading model: " ++ model_name)
    let s2 := { s2 with events := s2.events ++ [Event.load_model model_name] }
    match env.load_model model_name with
    | Except.error e => (s2, Except.error e)
    | Except.ok _ =>
      let s3 := print_line s2 ("Transcribing: " ++ audio_path)
      let opts := build_transcribe_options language task
      let s3 := { s3 with events := s3.events ++ [Event.transcribe_call audio_path opts] }
      match env.transcribe audio_path opts with
      | Except.error e => (s3, Except.error e)
      | Except.ok text =>
        let output_file := os_path_join output_dir (suffix ++ ".txt")
        match env.writeFault with
        | some e => (s3, Except.error e)
        | none =>
          let s4 := { s3 with fs := fs_write s3.fs output_file text,
                              events := s3.events ++ [Event.file_write output_file text] }
          let s4 := print_line s4 ("Transcription saved to: " ++ output_file)
          (s4, Except.ok output_file)

/-- Lines 22-51 of the source: run the try body; on success return the
output file path, on any exception print the error message and return
None. -/
def transcribe_audio (env : Env) (audio_path : String)
    (model_name : String) (output_base_dir : String)
    (language task : Option String) (s : RunState) :
    Option String × RunState :=
  match transcribe_body env audio_path model_name output_base_dir language task s with
  | (s1, Except.ok output_file) => (some output_file, s1)
  | (s1, Except.error e) =>
    (none, print_line s1 ("Error transcribing audio: " ++ e))

/-- The parsed command-line options record produced by argparse. -/
structure Args where
  audio : String
  model : String
  output : String
  language : Option String
  task : String
deriving DecidableEq, Repr

/-- Accumulator while scanning the command line: the positional argument
seen so far plus each flag's current (default or supplied) value. -/
structure ParseAcc where
  audio : Option String
  model : String
  output : String
  language : Option String
  task : String
deriving DecidableEq, Repr

/-- Whether a token looks like an option (argparse's leading-dash test). -/
def dash_leading (t : String) : Bool :=
  match t.data with
  | [] => false
  | c :: _ => c == '-'

/-- Scan the command-line tokens, mirroring the argparse configuration at
lines 54-62 of the source: flags --model, --output, --language take free
string values, --task is validated against the choices transcribe and
translate, and one positional audio argument is accepted. -/
def parse_tokens (acc : ParseAcc) : List String → Except String ParseAcc
  | [] => Except.ok acc
  | tok :: rest =>
    if tok = "--model" then
      match rest with
      | [] => Except.error "argument --model: expected one argument"
      | v :: rest1 =>
        if dash_leading v then Except.error "argument --model: expected one argument"
        else parse_tokens { acc with model := v } rest1
    else if tok = "--output" then
      match rest with
      | [] => Except.error "argument --output: expected one argument"
      | v :: rest1 =>
        if dash_leading v then Except.error "argument --output: expected one argument"
        else parse_tokens { acc with output := v } rest1
    else if tok = "--language" then
      match rest with
      | [] => Except.error "argument --language: expected one argument"
      | v :: rest1 =>
        if dash_leading v then Except.error "argument --language: expected one argument"
        else parse_tokens { acc with language := some v } rest1
    else if tok = "--task" then
      match rest with
      | [] => Except.error "argument --task: expected one argument"
      | v :: rest1 =>
        if dash_leading v then Except.error "argument --task: expected one argument"
        else if v = "transcribe" ∨ v = "translate" then
          parse_tokens { acc with task := v } rest1
        else Except.error ("argument --task: invalid choice: " ++ v)
    else if dash_leading tok then
      Except.error ("unrecognized arguments: " ++ tok)
    else
      match acc.audio with
      | none => parse_tokens { acc with audio := some tok } rest
      | some _ => Except.error ("unrecognized arguments: " ++ tok)

/-- Model of parser.parse_args() with the defaults of lines 55-60: model
tiny, output directory output, language None, task transcribe; the
positional audio argument is required. -/
def parse_args (argv : List String) : Except String Args :=
  match parse_tokens
      { audio := none, model := "tiny", output := "output",
        language := none, task := "transcribe" } argv with
  | Except.error e => Except.error e
  | Except.ok acc =>
    match acc.audio with
    | none => Except.error "the following arguments are required: audio"
    | some a =>
      Except.ok { audio := a, model := acc.model, output := acc.output,
                  language := acc.language, task := acc.task }

/-- Lines 53-79 of the source: parse the command line (argparse exits with
a usage error on bad input, modelled as exit code 2), check that the audio
path exists (else print an error and exit 1), run transcribe_audio, and
exit 1 when it returned a falsy result, 0 otherwise. -/
def main_run (env : Env) (argv : List String) (s0 : RunState) :
    Nat × RunState :=
  match parse_args argv with
  | Except.error e => (2, print_line s0 ("usage error: " ++ e))
  | Except.ok args =>
    if os_path_exists s0.fs args.audio then
      let r := transcribe_audio env args.audio args.model args.output
        args.language (some args.task) s0
      if pyTruthy r.1 then (0, r.2) else (1, r.2)
    else
      (1, print_line s0 ("Error: Audio file " ++ args.audio ++ " does not exist"))

/-! Helper lemmas about strings and the filesystem model. -/

theorem string_data_append (s t : String) : (s ++ t).data = s.data ++ t.data := by
  cases s; cases t; rfl

theorem string_eq_empty_iff (s : String) : s = "" ↔ s.data = [] := by
  constructor
  · intro h
    rw [h]
  · intro h
    cases s with
    | mk l =>
      cases h
      rfl

theorem string_data_ne_nil (s : String) (h : s ≠ "") : s.data ≠ [] :=
  fun hd => h ((string_eq_empty_iff s).mpr hd)

theorem append_ne_empty_right (s t : String) (h : t ≠ "") : s ++ t ≠ "" := by
  intro he
  rw [string_eq_empty_iff, string_data_append, List.append_eq_nil] at he
  exact h ((string_eq_empty_iff t).mpr he.2)

theorem append_ne_empty_left (s t : String) (h : s ≠ "") : s ++ t ≠ "" := by
  intro he
  rw [string_eq_empty_iff, string_data_append, List.append_eq_nil] at he
  exact h ((string_eq_empty_iff s).mpr he.1)

theorem isAbs_append (s t : String) (h : s ≠ "") : isAbs (s ++ t) = isAbs s := by
  have h1 := string_data_ne_nil s h
  unfold isAbs
  rw [string_data_append]
  cases hs : s.data with
  | nil => exact absurd hs h1
  | cons c cs => simp

theorem lastIsSlash_append (s t : String) (h : t ≠ "") :
    lastIsSlash (s ++ t) = lastIsSlash t := by
  have h1 := string_data_ne_nil t h
  unfold lastIsSlash
  rw [string_data_append, List.getLast?_append_of_ne_nil _ h1]

theorem pad2_facts : ∀ n, n < 100 →
    ((pad2 n).length = 2 ∧ isAbs (pad2 n) = false ∧
     lastIsSlash (pad2 n) = false ∧ pad2 n ≠ "") := by decide

/-- With a nonempty base that does not end in a slash and a nonempty
relative second component, os.path.join is plain slash-joining. -/
theorem os_path_join_rel (a b : String) (ha1 : a ≠ "") (ha2 : lastIsSlash a = false)
    (hb1 : isAbs b = false) : os_path_join a b = a ++ "/" ++ b := by
  unfold os_path_join
  rw [hb1, ha2]
  simp [ha1]

theorem os_path_join_ne_empty (a b : String) (hb : b ≠ "") :
    os_path_join a b ≠ "" := by
  unfold os_path_join
  split
  · exact hb
  · split
    · exact hb
    · split
      · exact append_ne_empty_right _ _ hb
      · exact append_ne_empty_right _ _ hb

theorem mem_insertDir_self (ds : List String) (d : String) : d ∈ insertDir ds d := by
  unfold insertDir
  split
  · assumption
  · simp

theorem mem_insertDir_of_mem (ds : List String) (d x : String) (h : x ∈ ds) :
    x ∈ insertDir ds d := by
  unfold insertDir
  split
  · exact h
  · exact List.mem_append_left _ h

theorem insertDir_of_mem (ds : List String) (d : String) (h : d ∈ ds) :
    insertDir ds d = ds := by
  unfold insertDir
  rw [if_pos h]

theorem mem_foldl_insertDir_of_mem (l : List String) (ds : List String) (x : String)
    (h : x ∈ ds) : x ∈ l.foldl insertDir ds := by
  induction l generalizing ds with
  | nil => exact h
  | cons a l ih => exact ih _ (mem_insertDir_of_mem _ _ _ h)

theorem mem_foldl_insertDir_of_mem_list (l : List String) (ds : List String)
    (x : String) (h : x ∈ l) : x ∈ l.foldl insertDir ds := by
  induction l generalizing ds with
  | nil => cases h
  | cons a l ih =>
    simp only [List.foldl_cons]
    cases h with
    | head => exact mem_foldl_insertDir_of_mem _ _ _ (mem_insertDir_self _ _)
    | tail _ h => exact ih _ h

theorem foldl_insertDir_of_subset (l : List String) (ds : List String)
    (h : ∀ x ∈ l, x ∈ ds) : l.foldl insertDir ds = ds := by
  induction l with
  | nil => rfl
  | cons a l ih =>
    have ha : a ∈ ds := h a (List.mem_cons_self a l)
    simp only [List.foldl_cons, insertDir_of_mem _ _ ha]
    exact ih (fun x hx => h x (List.mem_cons_of_mem _ hx))

theorem mem_addDir_self (ds : List String) (p : String) : p ∈ addDir ds p :=
  mem_insertDir_self _ _

theorem mem_addDir_of_mem (ds : List String) (p x : String) (h : x ∈ ds) :
    x ∈ addDir ds p :=
  mem_insertDir_of_mem _ _ _ (mem_foldl_insertDir_of_mem _ _ _ h)

theorem addDir_idem (ds : List String) (p : String) :
    addDir (addDir ds p) p = addDir ds p := by
  unfold addDir
  have hsub : ∀ x ∈ parentPrefixes p,
      x ∈ insertDir ((parentPrefixes p).foldl insertDir ds) p :=
    fun x hx =>
      mem_insertDir_of_mem _ _ _ (mem_foldl_insertDir_of_mem_list _ _ _ hx)
  rw [foldl_insertDir_of_subset _ _ hsub,
      insertDir_of_mem _ _ (mem_insertDir_self _ _)]

theorem string_append_assoc (a b c : String) : (a ++ b) ++ c = a ++ (b ++ c) := by
  cases a; cases b; cases c
  show String.mk _ = String.mk _
  rw [List.append_assoc]

theorem string_length_append (s t : String) : (s ++ t).length = s.length + t.length := by
  show (s ++ t).data.length = s.data.length + t.data.length
  rw [string_data_append, List.length_append]

/-- Field ranges guaranteed by Python's datetime for any real timestamp. -/
def ValidDateTime (t : DateTime) : Prop :=
  1 ≤ t.month ∧ t.month ≤ 12 ∧ 1 ≤ t.day ∧ t.day ≤ 31 ∧
  t.hour ≤ 23 ∧ t.minute ≤ 59 ∧ t.second ≤ 59

instance (t : DateTime) : Decidable (ValidDateTime t) := by
  unfold ValidDateTime
  infer_instance

/-- Claim C1: for every valid timestamp, the Path Builder computes the
directory path base/YY/MM/DDHH with every field zero-padded to two digits
and a 4-character minute+second filename stem; in particular, base
directory output and timestamp 2024-03-07 14:05:09 give the directory
output/24/03/0714 and the stem 0509. -/
theorem claim_c1_path_builder_format (base : String) (t : DateTime)
    (hb1 : base ≠ "") (hb2 : lastIsSlash base = false) (hv : ValidDateTime t) :
    dir_path base t =
      base ++ "/" ++ pad2 (t.year % 100) ++ "/" ++ pad2 t.month ++ "/" ++
        (pad2 t.day ++ pad2 t.hour) ∧
    (pad2 (t.year % 100)).length = 2 ∧ (pad2 t.month).length = 2 ∧
    (pad2 t.day).length = 2 ∧ (pad2 t.hour).length = 2 ∧
    (time_suffix t).length = 4 ∧
    dir_path "output" ⟨2024, 3, 7, 14, 5, 9⟩ = "output/24/03/0714" ∧
    time_suffix ⟨2024, 3, 7, 14, 5, 9⟩ = "0509" := by
  obtain ⟨hm1, hm2, hd1, hd2, hh2, hmi2, hs2⟩ := hv
  have hy : t.year % 100 < 100 := Nat.mod_lt _ (by decide)
  obtain ⟨ly, ay, sy, ny⟩ := pad2_facts _ hy
  obtain ⟨lm, am, sm, nm⟩ := pad2_facts t.month (by omega)
  obtain ⟨ld, ad, sd, nd⟩ := pad2_facts t.day (by omega)
  obtain ⟨lh, ah, sh, nh⟩ := pad2_facts t.hour (by omega)
  obtain ⟨lmi, ami, smi, nmi⟩ := pad2_facts t.minute (by omega)
  obtain ⟨ls, as1, ss, ns⟩ := pad2_facts t.second (by omega)
  have hym_ne : year_month t ≠ "" :=
    append_ne_empty_right _ _ nm
  have hym_abs : isAbs (year_month t) = false := by
    unfold year_month
    rw [isAbs_append _ _ (append_ne_empty_left _ _ ny), isAbs_append _ _ ny]
    exact ay
  have hym_slash : lastIsSlash (year_month t) = false := by
    unfold year_month
    rw [lastIsSlash_append _ _ nm]
    exact sm
  have hdh_abs : isAbs (day_hour t) = false := by
    unfold day_hour
    rw [isAbs_append _ _ nd]
    exact ad
  have e1 : os_path_join base (year_month t) = base ++ "/" ++ year_month t :=
    os_path_join_rel _ _ hb1 hb2 hym_abs
  have ha2_ne : base ++ "/" ++ year_month t ≠ "" :=
    append_ne_empty_right _ _ hym_ne
  have ha2_slash : lastIsSlash (base ++ "/" ++ year_month t) = false := by
    rw [lastIsSlash_append _ _ hym_ne]
    exact hym_slash
  have e2 : os_path_join (base ++ "/" ++ year_month t) (day_hour t) =
      base ++ "/" ++ year_month t ++ "/" ++ day_hour t :=
    os_path_join_rel _ _ ha2_ne ha2_slash hdh_abs
  refine ⟨?_, ly, lm, ld, lh, ?_, rfl, rfl⟩
  · unfold dir_path
    rw [e1, e2]
    unfold year_month day_hour
    simp only [string_append_assoc]
  · unfold time_suffix
    rw [string_length_append, lmi, ls]

/-- Witness for claim C1 at base output and timestamp 2024-03-07 14:05:09. -/
theorem claim_c1_path_builder_format_witness :
    dir_path "output" ⟨2024, 3, 7, 14, 5, 9⟩ = "output/24/03/0714" ∧
    time_suffix ⟨2024, 3, 7, 14, 5, 9⟩ = "0509" :=
  ⟨(claim_c1_path_builder_format "output" ⟨2024, 3, 7, 14, 5, 9⟩ (by decide)
      (by decide) (by decide)).2.2.2.2.2.2.1,
   (claim_c1_path_builder_format "output" ⟨2024, 3, 7, 14, 5, 9⟩ (by decide)
      (by decide) (by decide)).2.2.2.2.2.2.2⟩

/-- Claim C6: directory creation is idempotent: two calls of the Path
Builder whose timestamps agree on all the fields it reads yield the same
directory path and stem, and the second call succeeds without error even
though the directory already exists, leaving the filesystem unchanged. -/
theorem claim_c6_directory_creation_idempotent (e1 e2 : Env) (base : String)
    (s0 : RunState)
    (h1 : e1.makedirsFault = none) (h2 : e2.makedirsFault = none)
    (hy : e1.now.year % 100 = e2.now.year % 100)
    (hmo : e1.now.month = e2.now.month) (hd : e1.now.day = e2.now.day)
    (hh : e1.now.hour = e2.now.hour) (hmi : e1.now.minute = e2.now.minute)
    (hs : e1.now.second = e2.now.second) :
    ∃ d m s1, create_datetime_directory e1 base s0 = (s1, Except.ok (d, m)) ∧
      d ∈ s1.fs.dirs ∧
      create_datetime_directory e2 base s1 =
        ({ s1 with events := s1.events ++ [Event.mkdir d] }, Except.ok (d, m)) := by
  have hdp : dir_path base e2.now = dir_path base e1.now := by
    unfold dir_path year_month day_hour
    rw [hy, hmo, hd, hh]
  have hts : time_suffix e2.now = time_suffix e1.now := by
    unfold time_suffix
    rw [hmi, hs]
  refine ⟨dir_path base e1.now, time_suffix e1.now,
    { fs := { dirs := addDir s0.fs.dirs (dir_path base e1.now),
              files := s0.fs.files },
      console := s0.console,
      events := s0.events ++ [Event.mkdir (dir_path base e1.now)] },
    ?_, ?_, ?_⟩
  · simp [create_datetime_directory, h1, os_makedirs]
  · exact mem_addDir_self _ _
  · simp [create_datetime_directory, h2, os_makedirs, hdp, hts, addDir_idem]

/-- Witness for claim C6 at a benign environment and an empty state. -/
theorem claim_c6_directory_creation_idempotent_witness :
    ∃ d m s1,
      create_datetime_directory
        { now := ⟨2024, 3, 7, 14, 5, 9⟩, makedirsFault := none,
          load_model := fun _ => Except.ok (),
          transcribe := fun _ _ => Except.ok "", writeFault := none }
        "output" { fs := { dirs := [], files := [] }, console := [], events := [] } =
        (s1, Except.ok (d, m)) ∧
      d ∈ s1.fs.dirs ∧
      create_datetime_directory
        { now := ⟨2024, 3, 7, 14, 5, 9⟩, makedirsFault := none,
          load_model := fun _ => Except.ok (),
          transcribe := fun _ _ => Except.ok "", writeFault := none }
        "output" s1 =
        ({ s1 with events := s1.events ++ [Event.mkdir d] }, Except.ok (d, m)) :=
  claim_c6_directory_creation_idempotent _ _ "output" _ rfl rfl rfl rfl rfl rfl
    rfl rfl

/-- Claim C9: inclusion of the language and task keys is decided by Python
truthiness, not by a presence test: an empty-string language is omitted
exactly as when the language is None, and a falsy task value (None or the
empty string) omits the task key. -/
theorem claim_c9_truthiness_decides_keys (l t : Option String) :
    build_transcribe_options (some "") t = build_transcribe_options none t ∧
    (build_transcribe_options (some "") t).language = none ∧
    (build_transcribe_options l none).task = none ∧
    (build_transcribe_options l (some "")).task = none := by
  simp [build_transcribe_options, pyTruthy]

/-- Claim C4 as stated is false at the empty-string language: the language
is explicitly supplied, being distinct from None, yet the options built
for the engine omit the language key, while the task key is present. -/
theorem claim_c4_counterexample :
    (some "" : Option String) ≠ none ∧
    (build_transcribe_options (some "") (some "transcribe")).language = none ∧
    (build_transcribe_options (some "") (some "transcribe")).task =
      some "transcribe" := by
  refine ⟨by decide, ?_, ?_⟩ <;> simp [build_transcribe_options, pyTruthy]

/-- Claim C4 (amended): for every command-line invocation the options
record passed to the engine contains the task selector (task translate
when the task is translate), and contains a language key if and only if a
truthy language — one that is neither None nor the empty string — was
supplied; when no language flag is given the key is omitted entirely. -/
theorem claim_c4_options_keys_amended (lang : Option String) (task : String)
    (h : task = "transcribe" ∨ task = "translate") :
    (build_transcribe_options lang (some task)).task = some task ∧
    ((build_transcribe_options lang (some task)).language.isSome ↔
      pyTruthy lang = true) ∧
    (build_transcribe_options none (some task)).language = none := by
  refine ⟨?_, ?_, ?_⟩
  · rcases h with h | h <;> subst h <;> simp [build_transcribe_options, pyTruthy]
  · cases lang with
    | none => simp [build_transcribe_options, pyTruthy]
    | some s =>
      by_cases hs : s = "" <;> simp [build_transcribe_options, pyTruthy, hs]
  · simp [build_transcribe_options, pyTruthy]

/-- Witness for the amended claim C4 at a supplied language and the
translate task. -/
theorem claim_c4_options_keys_amended_witness :
    (build_transcribe_options (some "en") (some "translate")).task =
      some "translate" ∧
    ((build_transcribe_options (some "en") (some "translate")).language.isSome ↔
      pyTruthy (some "en") = true) ∧
    (build_transcribe_options none (some "translate")).language = none :=
  claim_c4_options_keys_amended (some "en") "translate" (Or.inr rfl)

theorem ne_flags_of_not_dash (t : String) (h : dash_leading t = false) :
    t ≠ "--model" ∧ t ≠ "--output" ∧ t ≠ "--language" ∧ t ≠ "--task" := by
  refine ⟨?_, ?_, ?_, ?_⟩ <;> rintro rfl <;> exact absurd h (by decide)

/-- Claim C8: the task flag is validated at parse time against the set
transcribe, translate and any other value is a usage error, while the
model flag is accepted as a free string; the defaults are model tiny,
output directory output, language unset, task transcribe. -/
theorem claim_c8_argument_parsing (env : Env) (s0 : RunState)
    (audio m v : String)
    (ha : dash_leading audio = false) (hm : dash_leading m = false)
    (hv : dash_leading v = false) (h1 : v ≠ "transcribe")
    (h2 : v ≠ "translate") :
    parse_args [audio] = Except.ok
      { audio := audio, model := "tiny", output := "output",
        language := none, task := "transcribe" } ∧
    parse_args [audio, "--model", m] = Except.ok
      { audio := audio, model := m, output := "output",
        language := none, task := "transcribe" } ∧
    parse_args [audio, "--task", v] =
      Except.error ("argument --task: invalid choice: " ++ v) ∧
    (main_run env [audio, "--task", v] s0).1 = 2 := by
  obtain ⟨na1, na2, na3, na4⟩ := ne_flags_of_not_dash audio ha
  have h3 : parse_args [audio, "--task", v] =
      Except.error ("argument --task: invalid choice: " ++ v) := by
    simp [parse_args, parse_tokens, na1, na2, na3, na4, ha, hv, h1, h2]
  refine ⟨?_, ?_, h3, ?_⟩
  · simp [parse_args, parse_tokens, na1, na2, na3, na4, ha]
  · simp [parse_args, parse_tokens, na1, na2, na3, na4, ha, hm]
  · simp [main_run, h3]

/-- Witness for claim C8: default invocation, a free-string model name,
and an invalid task value. -/
theorem claim_c8_argument_parsing_witness :
    parse_args ["sample.wav"] = Except.ok
      { audio := "sample.wav", model := "tiny", output := "output",
        language := none, task := "transcribe" } ∧
    parse_args ["sample.wav", "--model", "enormous"] = Except.ok
      { audio := "sample.wav", model := "enormous", output := "output",
        language := none, task := "transcribe" } ∧
    parse_args ["sample.wav", "--task", "detect"] =
      Except.error ("argument --task: invalid choice: " ++ "detect") ∧
    (main_run
      { now := ⟨2024, 3, 7, 14, 5, 9⟩, makedirsFault := none,
        load_model := fun _ => Except.ok (),
        transcribe := fun _ _ => Except.ok "", writeFault := none }
      ["sample.wav", "--task", "detect"]
      { fs := { dirs := [], files := [] }, console := [], events := [] }).1 = 2 :=
  claim_c8_argument_parsing
    { now := ⟨2024, 3, 7, 14, 5, 9⟩, makedirsFault := none,
      load_model := fun _ => Except.ok (),
      transcribe := fun _ _ => Except.ok "", writeFault := none }
    { fs := { dirs := [], files := [] }, console := [], events := [] }
    "sample.wav" "enormous" "detect" (by decide)
    (by decide) (by decide) (by decide) (by decide)

/-- A sample timestamp used by the concrete runs: 2024-03-07 14:05:09. -/
def sampleTime : DateTime := ⟨2024, 3, 7, 14, 5, 9⟩

/-- A benign environment whose engine returns a fixed text. -/
def happyEnv : Env :=
  { now := sampleTime, makedirsFault := none,
    load_model := fun _ => Except.ok (),
    transcribe := fun _ _ => Except.ok "hello world",
    writeFault := none }

/-- An initial state in which only the file sample.wav exists. -/
def state0 : RunState :=
  { fs := { dirs := [], files := [("sample.wav", "")] },
    console := [], events := [] }

/-- Claim C3: when the positional audio path names no existing filesystem
entry, the tool prints an error, exits with code 1, attempts no external
action (in particular no model loading), and creates no directories. -/
theorem claim_c3_missing_audio (env : Env) (argv : List String) (args : Args)
    (s0 : RunState)
    (hparse : parse_args argv = Except.ok args)
    (hex : os_path_exists s0.fs args.audio = false) :
    main_run env argv s0 =
      (1, { s0 with console := s0.console ++
        ["Error: Audio file " ++ args.audio ++ " does not exist"] }) ∧
    (main_run env argv s0).2.fs = s0.fs ∧
    (main_run env argv s0).2.events = s0.events := by
  have h : main_run env argv s0 =
      (1, { s0 with console := s0.console ++
        ["Error: Audio file " ++ args.audio ++ " does not exist"] }) := by
    simp [main_run, hparse, hex, print_line]
  exact ⟨h, by rw [h], by rw [h]⟩

/-- Witness for claim C3 at an input file that does not exist. -/
theorem claim_c3_missing_audio_witness :
    main_run happyEnv ["missing.wav"] state0 =
      (1, { state0 with console := state0.console ++
        ["Error: Audio file " ++ "missing.wav" ++ " does not exist"] }) ∧
    (main_run happyEnv ["missing.wav"] state0).2.fs = state0.fs ∧
    (main_run happyEnv ["missing.wav"] state0).2.events = state0.events :=
  claim_c3_missing_audio happyEnv ["missing.wav"]
    { audio := "missing.wav", model := "tiny", output := "output",
      language := none, task := "transcribe" } state0 rfl rfl

/-- Claim C2: when the engine call and the file write succeed, the file at
output_dir/stem.txt holds exactly the engine's returned text with no extra
framing, transcribe_audio returns that file's path, the line naming the
path is printed to the console, and the process exits with code 0. -/
theorem claim_c2_success_path (env : Env) (argv : List String) (args : Args)
    (text : String) (s0 : RunState)
    (hparse : parse_args argv = Except.ok args)
    (hex : os_path_exists s0.fs args.audio = true)
    (hmk : env.makedirsFault = none)
    (hload : env.load_model args.model = Except.ok ())
    (htr : env.transcribe args.audio
      (build_transcribe_options args.language (some args.task)) =
        Except.ok text)
    (hwr : env.writeFault = none) :
    ∃ s1,
      transcribe_audio env args.audio args.model args.output args.language
          (some args.task) s0 =
        (some (os_path_join (dir_path args.output env.now)
            (time_suffix env.now ++ ".txt")), s1) ∧
      read_file s1.fs (os_path_join (dir_path args.output env.now)
          (time_suffix env.now ++ ".txt")) = some text ∧
      ("Transcription saved to: " ++ os_path_join (dir_path args.output env.now)
          (time_suffix env.now ++ ".txt")) ∈ s1.console ∧
      main_run env argv s0 = (0, s1) := by
  have hp : os_path_join (dir_path args.output env.now)
      (time_suffix env.now ++ ".txt") ≠ "" :=
    os_path_join_ne_empty _ _ (append_ne_empty_right _ _ (by decide))
  have hta : transcribe_audio env args.audio args.model args.output
      args.language (some args.task) s0 =
      (some (os_path_join (dir_path args.output env.now)
        (time_suffix env.now ++ ".txt")),
       { fs := fs_write { dirs := addDir s0.fs.dirs (dir_path args.output env.now),
                          files := s0.fs.files }
                 (os_path_join (dir_path args.output env.now)
                   (time_suffix env.now ++ ".txt")) text,
         console := s0.console ++ ["Loading model: " ++ args.model] ++
           ["Transcribing: " ++ args.audio] ++
           ["Transcription saved to: " ++ os_path_join (dir_path args.output env.now)
             (time_suffix env.now ++ ".txt")],
         events := s0.events ++ [Event.mkdir (dir_path args.output env.now)] ++
           [Event.load_model args.model] ++
           [Event.transcribe_call args.audio
             (build_transcribe_options args.language (some args.task))] ++
           [Event.file_write (os_path_join (dir_path args.output env.now)
             (time_suffix env.now ++ ".txt")) text] }) := by
    simp [transcribe_audio, transcribe_body, create_datetime_directory,
      os_makedirs, hmk, hload, htr, hwr, print_line]
  refine ⟨_, hta, ?_, ?_, ?_⟩
  · simp [read_file, fs_write]
  · simp
  · simp [main_run, hparse, hex, hta, pyTruthy, hp]

/-- Witness for claim C2 at the benign environment: the concrete run
writes hello world under output/24/03/0714/0509.txt and exits 0. -/
theorem claim_c2_success_path_witness :
    ∃ s1,
      transcribe_audio happyEnv "sample.wav" "tiny" "output" none
          (some "transcribe") state0 =
        (some (os_path_join (dir_path "output" happyEnv.now)
            (time_suffix happyEnv.now ++ ".txt")), s1) ∧
      read_file s1.fs (os_path_join (dir_path "output" happyEnv.now)
          (time_suffix happyEnv.now ++ ".txt")) = some "hello world" ∧
      ("Transcription saved to: " ++ os_path_join (dir_path "output" happyEnv.now)
          (time_suffix happyEnv.now ++ ".txt")) ∈ s1.console ∧
      main_run happyEnv ["sample.wav"] state0 = (0, s1) :=
  claim_c2_success_path happyEnv ["sample.wav"]
    { audio := "sample.wav", model := "tiny", output := "output",
      language := none, task := "transcribe" } "hello world" state0
    rfl rfl rfl rfl rfl rfl

/-- An environment whose model loading raises. -/
def loadFailEnv : Env :=
  { now := sampleTime, makedirsFault := none,
    load_model := fun _ => Except.error "model weights unavailable",
    transcribe := fun _ _ => Except.ok "", writeFault := none }

/-- An environment whose transcription call raises. -/
def engineFailEnv : Env :=
  { now := sampleTime, makedirsFault := none,
    load_model := fun _ => Except.ok (),
    transcribe := fun _ _ => Except.error "corrupt audio", writeFault := none }

/-- An environment whose file write raises. -/
def writeFailEnv : Env :=
  { now := sampleTime, makedirsFault := none,
    load_model := fun _ => Except.ok (),
    transcribe := fun _ _ => Except.ok "hello world",
    writeFault := some "disk full" }

/-- An environment whose directory creation raises. -/
def mkdirFailEnv : Env :=
  { now := sampleTime, makedirsFault := some "permission denied",
    load_model := fun _ => Except.ok (),
    transcribe := fun _ _ => Except.ok "hello world", writeFault := none }

/-- The parsed arguments of the default invocation on sample.wav. -/
def sampleArgs : Args :=
  { audio := "sample.wav", model := "tiny", output := "output",
    language := none, task := "transcribe" }

/-- Claim C5: a failure raised during model loading, transcription, or
file writing is caught at the boundary of transcribe_audio, its message is
printed to the console, the function returns an absent result instead of
propagating, and the process then exits with code 1. -/
theorem claim_c5_failures_absent_result (env : Env) (argv : List String)
    (args : Args) (s0 : RunState) (e text : String)
    (hparse : parse_args argv = Except.ok args)
    (hex : os_path_exists s0.fs args.audio = true)
    (hmk : env.makedirsFault = none) :
    (env.load_model args.model = Except.error e →
      (transcribe_audio env args.audio args.model args.output args.language
        (some args.task) s0).1 = none ∧
      ("Error transcribing audio: " ++ e) ∈
        (transcribe_audio env args.audio args.model args.output args.language
          (some args.task) s0).2.console ∧
      (main_run env argv s0).1 = 1) ∧
    (env.load_model args.model = Except.ok () →
      env.transcribe args.audio
        (build_transcribe_options args.language (some args.task)) =
          Except.error e →
      (transcribe_audio env args.audio args.model args.output args.language
        (some args.task) s0).1 = none ∧
      ("Error transcribing audio: " ++ e) ∈
        (transcribe_audio env args.audio args.model args.output args.language
          (some args.task) s0).2.console ∧
      (main_run env argv s0).1 = 1) ∧
    (env.load_model args.model = Except.ok () →
      env.transcribe args.audio
        (build_transcribe_options args.language (some args.task)) =
          Except.ok text →
      env.writeFault = some e →
      (transcribe_audio env args.audio args.model args.output args.language
        (some args.task) s0).1 = none ∧
      ("Error transcribing audio: " ++ e) ∈
        (transcribe_audio env args.audio args.model args.output args.language
          (some args.task) s0).2.console ∧
      (main_run env argv s0).1 = 1) := by
  refine ⟨fun hL => ?_, fun hL hT => ?_, fun hL hT hW => ?_⟩ <;>
    refine ⟨?_, ?_, ?_⟩ <;>
      simp [transcribe_audio, transcribe_body, create_datetime_directory,
        os_makedirs, main_run, hparse, hex, hmk, hL, print_line, pyTruthy,
        *]

/-- Witness for claim C5: a load failure, an engine failure and a write
failure, each caught, logged, and turned into exit code 1. -/
theorem claim_c5_failures_absent_result_witness :
    ((transcribe_audio loadFailEnv "sample.wav" "tiny" "output" none
        (some "transcribe") state0).1 = none ∧
      ("Error transcribing audio: " ++ "model weights unavailable") ∈
        (transcribe_audio loadFailEnv "sample.wav" "tiny" "output" none
          (some "transcribe") state0).2.console ∧
      (main_run loadFailEnv ["sample.wav"] state0).1 = 1) ∧
    ((transcribe_audio engineFailEnv "sample.wav" "tiny" "output" none
        (some "transcribe") state0).1 = none ∧
      ("Error transcribing audio: " ++ "corrupt audio") ∈
        (transcribe_audio engineFailEnv "sample.wav" "tiny" "output" none
          (some "transcribe") state0).2.console ∧
      (main_run engineFailEnv ["sample.wav"] state0).1 = 1) ∧
    ((transcribe_audio writeFailEnv "sample.wav" "tiny" "output" none
        (some "transcribe") state0).1 = none ∧
      ("Error transcribing audio: " ++ "disk full") ∈
        (transcribe_audio writeFailEnv "sample.wav" "tiny" "output" none
          (some "transcribe") state0).2.console ∧
      (main_run writeFailEnv ["sample.wav"] state0).1 = 1) :=
  ⟨(claim_c5_failures_absent_result loadFailEnv ["sample.wav"] sampleArgs
      state0 "model weights unavailable" "" rfl rfl rfl).1 rfl,
   (claim_c5_failures_absent_result engineFailEnv ["sample.wav"] sampleArgs
      state0 "corrupt audio" "" rfl rfl rfl).2.1 rfl rfl,
   (claim_c5_failures_absent_result writeFailEnv ["sample.wav"] sampleArgs
      state0 "disk full" "hello world" rfl rfl rfl).2.2 rfl rfl rfl⟩

/-- Claim C7: the output directory is created before model loading is
attempted, and whatever happens afterwards the created directory is still
present in the final filesystem, never cleaned up; the mkdir event is the
first external action of the invocation. -/
theorem claim_c7_directory_created_first (env : Env)
    (audio model base : String) (lang task : Option String) (s0 : RunState)
    (hmk : env.makedirsFault = none) :
    dir_path base env.now ∈
      (transcribe_audio env audio model base lang task s0).2.fs.dirs ∧
    ∃ rest, (transcribe_audio env audio model base lang task s0).2.events =
      s0.events ++ Event.mkdir (dir_path base env.now) :: rest := by
  cases hL : env.load_model model with
  | error e =>
    refine ⟨?_, [Event.load_model model], ?_⟩ <;>
      simp [transcribe_audio, transcribe_body, create_datetime_directory,
        os_makedirs, hmk, hL, print_line, mem_addDir_self]
  | ok u =>
    cases u
    cases hT : env.transcribe audio (build_transcribe_options lang task) with
    | error e =>
      refine ⟨?_, [Event.load_model model,
          Event.transcribe_call audio (build_transcribe_options lang task)],
          ?_⟩ <;>
        simp [transcribe_audio, transcribe_body, create_datetime_directory,
          os_makedirs, hmk, hL, hT, print_line, mem_addDir_self]
    | ok text =>
      cases hW : env.writeFault with
      | some e =>
        refine ⟨?_, [Event.load_model model,
            Event.transcribe_call audio (build_transcribe_options lang task)],
            ?_⟩ <;>
          simp [transcribe_audio, transcribe_body, create_datetime_directory,
            os_makedirs, hmk, hL, hT, hW, print_line, mem_addDir_self]
      | none =>
        refine ⟨?_, [Event.load_model model,
            Event.transcribe_call audio (build_transcribe_options lang task),
            Event.file_write (os_path_join (dir_path base env.now)
              (time_suffix env.now ++ ".txt")) text], ?_⟩ <;>
          simp [transcribe_audio, transcribe_body, create_datetime_directory,
            os_makedirs, hmk, hL, hT, hW, print_line, fs_write,
            mem_addDir_self]

/-- Witness for claim C7: even when the engine fails, the directory
created in step 1 is present afterwards and the mkdir came first. -/
theorem claim_c7_directory_created_first_witness :
    dir_path "output" engineFailEnv.now ∈
      (transcribe_audio engineFailEnv "sample.wav" "tiny" "output" none
        (some "transcribe") state0).2.fs.dirs ∧
    ∃ rest, (transcribe_audio engineFailEnv "sample.wav" "tiny" "output" none
        (some "transcribe") state0).2.events =
      state0.events ++ Event.mkdir (dir_path "output" engineFailEnv.now) :: rest :=
  claim_c7_directory_created_first engineFailEnv "sample.wav" "tiny" "output"
    none (some "transcribe") state0 rfl

/-- Claim C10: transcribe_audio is total with respect to faults: for every
environment, so for every fault raised anywhere in its body, including a
directory-creation failure, the catch-all turns the fault into a printed
message and an absent result, and no fault escapes to the caller. -/
theorem claim_c10_total_no_propagation (env : Env)
    (audio model base : String) (lang task : Option String) (s0 : RunState) :
    ((∃ p s1, transcribe_audio env audio model base lang task s0 =
        (some p, s1)) ∨
     (∃ e s1, transcribe_audio env audio model base lang task s0 =
        (none, s1) ∧
        ("Error transcribing audio: " ++ e) ∈ s1.console)) ∧
    (∀ e, env.makedirsFault = some e →
      (transcribe_audio env audio model base lang task s0).1 = none ∧
      ("Error transcribing audio: " ++ e) ∈
        (transcribe_audio env audio model base lang task s0).2.console) := by
  constructor
  · rcases hb : transcribe_body env audio model base lang task s0 with ⟨s1, r⟩
    cases r with
    | ok p => exact Or.inl ⟨p, s1, by simp [transcribe_audio, hb]⟩
    | error e =>
      exact Or.inr ⟨e, print_line s1 ("Error transcribing audio: " ++ e),
        by simp [transcribe_audio, hb], by simp [print_line]⟩
  · intro e he
    constructor <;>
      simp [transcribe_audio, transcribe_body, create_datetime_directory,
        he, print_line]

/-- Witness for claim C10: a directory-creation fault is caught and
reported like any other. -/
theorem claim_c10_total_no_propagation_witness :
    (transcribe_audio mkdirFailEnv "sample.wav" "tiny" "output" none
      (some "transcribe") state0).1 = none ∧
    ("Error transcribing audio: " ++ "permission denied") ∈
      (transcribe_audio mkdirFailEnv "sample.wav" "tiny" "output" none
        (some "transcribe") state0).2.console :=
  (claim_c10_total_no_propagation mkdirFailEnv "sample.wav" "tiny" "output"
    none (some "transcribe") state0).2 "permission denied" rfl

end CustomWhisper
